import Mathlib

/-!
Verification development for the `core-ml-playgrounds` repository.

The repository holds two standalone scripts that each produce the serialized
model file `simple_model.mlmodel` encoding the affine function y = 2*x + 1:

* `src/create_simple_model.py` fits `sklearn.linear_model.LinearRegression`
  on five literal training pairs and converts the fitted regressor with
  `coremltools.converters.sklearn.convert`;
* `src/create_simple_model_manual.py` hand-builds a one-layer network with
  `NeuralNetworkBuilder.add_inner_product` using weight `[[2.0]]` and bias
  `[1.0]`.

Machine floating-point numbers are embedded as exact rationals; the
least-squares fit performed by the sklearn library is embedded as the exact
ordinary-least-squares minimizer it computes.
-/

namespace CoreMLPlaygrounds

/-- Feature types occurring in the two scripts: the converter path declares a
scalar `"double"` feature, the builder path declares `datatypes.Array(n)`. -/
inductive FeatureType where
  | double
  | array (size : Nat)
  deriving DecidableEq, Repr

/-- A named model feature, as in `("input", "double")` or
`('input', datatypes.Array(1))`. -/
structure Feature where
  name : String
  type : FeatureType
  deriving DecidableEq, Repr

/-- The three metadata fields both scripts assign after constructing the
model object. -/
structure Metadata where
  short_description : String
  author : String
  version : String
  deriving DecidableEq, Repr

/-- Metadata of a freshly constructed model object, before the three
assignments in either script. -/
def emptyMetadata : Metadata := ⟨"", "", ""⟩

/-! ## Trainer-based generator: `src/create_simple_model.py` -/

/-- Training inputs
`X = np.array([[1], [2], [3], [4], [5]], dtype=np.float32)`
(`src/create_simple_model.py`, line 12); each row has one feature. -/
def X : List ℚ := [1, 2, 3, 4, 5]

/-- Training targets `y = np.array([3, 5, 7, 9, 11], dtype=np.float32)`
(`src/create_simple_model.py`, line 13). -/
def y : List ℚ := [3, 5, 7, 9, 11]

/-- Mean of a list of rationals. -/
def mean (l : List ℚ) : ℚ := l.sum / l.length

/-- Dot product of two lists of rationals. -/
def dot (a b : List ℚ) : ℚ := (List.zipWith (· * ·) a b).sum

/-- Slope computed by `LinearRegression().fit(X, y)` on a single feature:
the ordinary-least-squares slope Σ(xᵢ−x̄)(yᵢ−ȳ) / Σ(xᵢ−x̄)², embedded over
exact rationals. -/
def olsSlope (xs ys : List ℚ) : ℚ :=
  let xm := mean xs
  let ym := mean ys
  dot (xs.map (· - xm)) (ys.map (· - ym)) / dot (xs.map (· - xm)) (xs.map (· - xm))

/-- Intercept computed by `LinearRegression().fit(X, y)`:
ȳ − slope·x̄, embedded over exact rationals. -/
def olsIntercept (xs ys : List ℚ) : ℚ := mean ys - olsSlope xs ys * mean xs

/-- Sum of squared errors of the affine candidate `w·x + b` on the script's
training data, the objective `LinearRegression.fit` minimizes. -/
def sse (w b : ℚ) : ℚ := (List.zipWith (fun xi yi => (w * xi + b - yi) ^ 2) X y).sum

/-- The artifact produced by `ct.converters.sklearn.convert` from a fitted
`LinearRegression`: a GLM regression spec holding the declared features and
the fitted coefficient and intercept. -/
structure GLMRegressionModel where
  input_features : List Feature
  output_feature_names : List String
  coef : ℚ
  intercept : ℚ
  metadata : Metadata
  deriving DecidableEq, Repr

/-- `ct.converters.sklearn.convert(model, input_features=[("input", "double")],
output_feature_names=["output"])` applied to the regressor fitted on `X, y`
(`src/create_simple_model.py`, lines 16-24). -/
def convertedModel : GLMRegressionModel :=
  { input_features := [⟨"input", .double⟩]
    output_feature_names := ["output"]
    coef := olsSlope X y
    intercept := olsIntercept X y
    metadata := emptyMetadata }

/-- `coreml_model.short_description = s` (metadata assignment on the GLM
model object). -/
def GLMRegressionModel.setShortDescription (m : GLMRegressionModel) (s : String) :
    GLMRegressionModel :=
  { m with metadata := { m.metadata with short_description := s } }

/-- `coreml_model.author = s`. -/
def GLMRegressionModel.setAuthor (m : GLMRegressionModel) (s : String) :
    GLMRegressionModel :=
  { m with metadata := { m.metadata with author := s } }

/-- `coreml_model.version = s`. -/
def GLMRegressionModel.setVersion (m : GLMRegressionModel) (s : String) :
    GLMRegressionModel :=
  { m with metadata := { m.metadata with version := s } }

/-- The trainer script's model after the three metadata assignments
(`src/create_simple_model.py`, lines 27-29). -/
def coreml_model : GLMRegressionModel :=
  ((convertedModel.setShortDescription
      "Simple linear regression: y = 2*x + 1").setAuthor
      "CoreML Experiment").setVersion "1.0"

/-- Semantics of the GLM regression artifact: the affine map it encodes. -/
def GLMRegressionModel.predict (m : GLMRegressionModel) (x : ℚ) : ℚ :=
  m.coef * x + m.intercept

/-! ## Manual-builder generator: `src/create_simple_model_manual.py` -/

/-- One inner-product (fully-connected) layer as added by
`builder.add_inner_product` with its keyword arguments. -/
structure InnerProductLayer where
  name : String
  W : List (List ℚ)
  b : List ℚ
  input_channels : Nat
  output_channels : Nat
  has_bias : Bool
  input_name : String
  output_name : String
  deriving DecidableEq, Repr

/-- The network spec built by `NeuralNetworkBuilder` and wrapped by
`MLModel(model_spec)`: declared input/output features, the layer list, and
the metadata fields. -/
structure NeuralNetworkModel where
  input_features : List Feature
  output_features : List Feature
  layers : List InnerProductLayer
  metadata : Metadata
  deriving DecidableEq, Repr

/-- `NeuralNetworkBuilder(input_features=[('input', datatypes.Array(1))],
output_features=[('output', datatypes.Array(1))])`
(`src/create_simple_model_manual.py`, lines 13-16): a builder with the
declared features and no layers yet. -/
def builder : NeuralNetworkModel :=
  { input_features := [⟨"input", .array 1⟩]
    output_features := [⟨"output", .array 1⟩]
    layers := []
    metadata := emptyMetadata }

/-- `builder.add_inner_product(...)`: appends one inner-product layer to the
network spec. -/
def add_inner_product (m : NeuralNetworkModel) (name : String) (W : List (List ℚ))
    (b : List ℚ) (input_channels output_channels : Nat) (has_bias : Bool)
    (input_name output_name : String) : NeuralNetworkModel :=
  { m with layers := m.layers ++
      [⟨name, W, b, input_channels, output_channels, has_bias, input_name, output_name⟩] }

/-- The spec after the single `add_inner_product` call with `name='linear'`,
`W=np.array([[2.0]])`, `b=np.array([1.0])`, `input_channels=1`,
`output_channels=1`, `has_bias=True`, `input_name='input'`,
`output_name='output'` (`src/create_simple_model_manual.py`, lines 20-29). -/
def model_spec : NeuralNetworkModel :=
  add_inner_product builder "linear" [[2]] [1] 1 1 true "input" "output"

/-- `model.short_description = s` on the wrapped `MLModel`. -/
def NeuralNetworkModel.setShortDescription (m : NeuralNetworkModel) (s : String) :
    NeuralNetworkModel :=
  { m with metadata := { m.metadata with short_description := s } }

/-- `model.author = s`. -/
def NeuralNetworkModel.setAuthor (m : NeuralNetworkModel) (s : String) :
    NeuralNetworkModel :=
  { m with metadata := { m.metadata with author := s } }

/-- `model.version = s`. -/
def NeuralNetworkModel.setVersion (m : NeuralNetworkModel) (s : String) :
    NeuralNetworkModel :=
  { m with metadata := { m.metadata with version := s } }

/-- The manual script's model after the three metadata assignments
(`src/create_simple_model_manual.py`, lines 36-38). -/
def manualModel : NeuralNetworkModel :=
  ((model_spec.setShortDescription
      "Simple linear function: y = 2*x + 1").setAuthor
      "CoreML Experiment").setVersion "1.0"

/-- Semantics of one inner-product layer: `out[j] = Σᵢ W[j][i]·x[i] + b[j]`
(bias added only when `has_bias` is set). -/
def runLayer (l : InnerProductLayer) (x : List ℚ) : List ℚ :=
  (List.range l.output_channels).map fun j =>
    dot ((l.W.get? j).getD []) x + (if l.has_bias then (l.b.get? j).getD 0 else 0)

/-- Semantics of the network artifact: run the layers in order on the input
array. -/
def NeuralNetworkModel.run (m : NeuralNetworkModel) (x : List ℚ) : List ℚ :=
  m.layers.foldl (fun v l => runLayer l v) x

/-! ## Script effects: file write and console output -/

/-- Contents saved to disk: an artifact of either kind. -/
inductive SavedArtifact where
  | glm (m : GLMRegressionModel)
  | nn (m : NeuralNetworkModel)
  deriving DecidableEq

/-- The filesystem, as a map from filename to saved contents. -/
def FS : Type := String → Option SavedArtifact

/-- `model.save(fname)`: write the artifact under the filename, replacing
whatever was stored there; no other name changes and the prior contents at
the name are never consulted. -/
def save (fs : FS) (fname : String) (a : SavedArtifact) : FS :=
  fun n => if n = fname then some a else fs n

/-- Console lines printed by `src/create_simple_model.py` (lines 33-36),
byte-faithful to the source file. -/
def trainerOutput : List String :=
  ["✅ Created simple_model.mlmodel",
   "   Formula: y = 2*x + 1",
   "   Input: \x27input\x27 (double)",
   "   Output: \x27output\x27 (double)"]

/-- Console lines printed by `src/create_simple_model_manual.py`
(lines 42-46), byte-faithful to the source file (its first line carries a
mojibake-encoded check mark, unlike the trainer script's). -/
def manualOutput : List String :=
  ["âœ… Created simple_model.mlmodel",
   "   Formula: y = 2*x + 1",
   "   Input: \x27input\x27 (array of size 1)",
   "   Output: \x27output\x27 (array of size 1)",
   "   Test: input [3.0] should output [7.0]"]

/-- Full effect of running `src/create_simple_model.py`: the module body
reads no command-line arguments, no environment variables and no source of
randomness (so `args` and `env` are ignored, faithfully to the source),
builds `coreml_model`, saves it to `"simple_model.mlmodel"` and prints
`trainerOutput`. -/
def runTrainerScript (_args : List String) (_env : String → Option String) (fs : FS) :
    FS × List String :=
  (save fs "simple_model.mlmodel" (.glm coreml_model), trainerOutput)

/-- Full effect of running `src/create_simple_model_manual.py`: likewise
ignores `args` and `env` (the module body reads neither), builds
`manualModel`, saves it to `"simple_model.mlmodel"` and prints
`manualOutput`. -/
def runManualScript (_args : List String) (_env : String → Option String) (fs : FS) :
    FS × List String :=
  (save fs "simple_model.mlmodel" (.nn manualModel), manualOutput)

/-! ## Theorems -/

/-- C1: Both artifacts declare exactly one input feature named "input" and one
output feature named "output", and they encode the same semantic function:
for every input x, running the manual network on the one-element array [x]
yields the one-element array holding the trainer artifact's prediction, the
affine value 2*x + 1. -/
theorem artifacts_semantically_equivalent :
    coreml_model.input_features.map Feature.name = ["input"] ∧
    coreml_model.output_feature_names = ["output"] ∧
    manualModel.input_features.map Feature.name = ["input"] ∧
    manualModel.output_features.map Feature.name = ["output"] ∧
    ∀ x : ℚ, manualModel.run [x] = [coreml_model.predict x] ∧
      coreml_model.predict x = 2 * x + 1 := by
  refine ⟨rfl, rfl, rfl, rfl, fun x => ?_⟩
  norm_num [NeuralNetworkModel.run, manualModel, model_spec, builder, add_inner_product,
    NeuralNetworkModel.setShortDescription, NeuralNetworkModel.setAuthor,
    NeuralNetworkModel.setVersion, runLayer, dot, List.range_succ,
    GLMRegressionModel.predict, coreml_model, convertedModel,
    GLMRegressionModel.setShortDescription, GLMRegressionModel.setAuthor,
    GLMRegressionModel.setVersion, olsIntercept, olsSlope, mean, X, y]

/-- C1 witness: the semantic equivalence instantiated at the concrete input 3. -/
theorem artifacts_semantically_equivalent_witness :
    manualModel.run [3] = [coreml_model.predict 3] :=
  (artifacts_semantically_equivalent.2.2.2.2 3).1

/-- C2: Both artifacts map input 3.0 to output 7.0 and input 0.0 to
output 1.0; over the exact-rational embedding the fitted trainer artifact
attains these values exactly as well. -/
theorem artifacts_eval_at_3_and_0 :
    coreml_model.predict 3 = 7 ∧ coreml_model.predict 0 = 1 ∧
    manualModel.run [3] = [7] ∧ manualModel.run [0] = [1] := by
  norm_num [NeuralNetworkModel.run, manualModel, model_spec, builder, add_inner_product,
    NeuralNetworkModel.setShortDescription, NeuralNetworkModel.setAuthor,
    NeuralNetworkModel.setVersion, runLayer, dot, List.range_succ,
    GLMRegressionModel.predict, coreml_model, convertedModel,
    GLMRegressionModel.setShortDescription, GLMRegressionModel.setAuthor,
    GLMRegressionModel.setVersion, olsIntercept, olsSlope, mean, X, y]

/-- C3: The least-squares fit on the five hardcoded training pairs yields
exactly weight 2 and bias 1 (so certainly within tolerance 1e-6), these are
the coefficients stored in the converted artifact, and (2, 1) is the unique
global minimizer of the sum-of-squared-errors objective on this data. -/
theorem fit_recovers_exact_coefficients :
    olsSlope X y = 2 ∧ olsIntercept X y = 1 ∧
    convertedModel.coef = 2 ∧ convertedModel.intercept = 1 ∧
    (∀ w b : ℚ, sse 2 1 ≤ sse w b) ∧
    (∀ w b : ℚ, sse w b = 0 → w = 2 ∧ b = 1) := by
  refine ⟨by norm_num [olsSlope, mean, dot, X, y],
    by norm_num [olsIntercept, olsSlope, mean, dot, X, y],
    by norm_num [convertedModel, olsSlope, mean, dot, X, y],
    by norm_num [convertedModel, olsIntercept, olsSlope, mean, dot, X, y],
    fun w b => ?_, fun w b h => ?_⟩
  · simp only [sse, X, y, List.zipWith, List.sum_cons, List.sum_nil]
    nlinarith [sq_nonneg (3 * (w - 2) + (b - 1)), sq_nonneg (w - 2)]
  · simp only [sse, X, y, List.zipWith, List.sum_cons, List.sum_nil] at h
    constructor
    · nlinarith [sq_nonneg (3 * (w - 2) + (b - 1)), sq_nonneg (w - 2)]
    · nlinarith [sq_nonneg (3 * (w - 2) + (b - 1)), sq_nonneg (w - 2), sq_nonneg (b - 1)]

/-- C3 witness: minimality at the concrete candidate (0, 0), and the
uniqueness implication discharged at (2, 1), where the objective is zero. -/
theorem fit_recovers_exact_coefficients_witness :
    sse 2 1 ≤ sse 0 0 ∧ ((2 : ℚ) = 2 ∧ (1 : ℚ) = 1) :=
  ⟨fit_recovers_exact_coefficients.2.2.2.2.1 0 0,
   fit_recovers_exact_coefficients.2.2.2.2.2 2 1 (by norm_num [sse, X, y])⟩

/-- C4: The manual builder declares an input array of length 1 and an output
array of length 1, and the spec contains exactly one inner-product layer
whose weight matrix is exactly [[2]] and bias vector exactly [1], with bias
enabled, 1 input channel and 1 output channel; the layer list is unchanged
by the later metadata assignments. -/
theorem manual_parameters_exact :
    model_spec.input_features = [⟨"input", .array 1⟩] ∧
    model_spec.output_features = [⟨"output", .array 1⟩] ∧
    model_spec.layers = [⟨"linear", [[2]], [1], 1, 1, true, "input", "output"⟩] ∧
    manualModel.layers = [⟨"linear", [[2]], [1], 1, 1, true, "input", "output"⟩] :=
  ⟨rfl, rfl, rfl, rfl⟩

/-- C5: The trainer's hardcoded training set consists of exactly five
(input, target) literal pairs, and every pair satisfies target = 2·input + 1. -/
theorem training_data_five_linear_pairs :
    (X.zip y).length = 5 ∧ ∀ p ∈ X.zip y, p.2 = 2 * p.1 + 1 := by
  have hz : X.zip y = [(1, 3), (2, 5), (3, 7), (4, 9), (5, 11)] := rfl
  refine ⟨rfl, fun p hp => ?_⟩
  rw [hz] at hp
  fin_cases hp <;> norm_num

/-- C5 witness: the linearity property checked at the third training pair. -/
theorem training_data_five_linear_pairs_witness :
    (((3 : ℚ), (7 : ℚ)).2 = 2 * ((3 : ℚ), (7 : ℚ)).1 + 1) ∧ ((3 : ℚ), (7 : ℚ)) ∈ X.zip y := by
  have hm : ((3 : ℚ), (7 : ℚ)) ∈ X.zip y := by
    have hz : X.zip y = [(1, 3), (2, 5), (3, 7), (4, 9), (5, 11)] := rfl
    rw [hz]; norm_num
  exact ⟨training_data_five_linear_pairs.2 (3, 7) hm, hm⟩

/-- C6 counterexample: the two artifacts do not carry the same
short-description text — the trainer artifact says "regression" where the
manual artifact says "function" — so the claim that all three metadata
values are equal across the artifacts is false. -/
theorem metadata_short_descriptions_differ :
    coreml_model.metadata.short_description = "Simple linear regression: y = 2*x + 1" ∧
    manualModel.metadata.short_description = "Simple linear function: y = 2*x + 1" ∧
    coreml_model.metadata.short_description ≠ manualModel.metadata.short_description := by
  refine ⟨rfl, rfl, ?_⟩
  decide

/-- C6 amended: both scripts set the same three metadata fields; the author
("CoreML Experiment") and version ("1.0") values are equal across the two
artifacts, while the short descriptions both restate y = 2*x + 1 but differ
in one word ("regression" vs "function"). -/
theorem metadata_fields_values :
    coreml_model.metadata.author = "CoreML Experiment" ∧
    manualModel.metadata.author = "CoreML Experiment" ∧
    coreml_model.metadata.version = "1.0" ∧
    manualModel.metadata.version = "1.0" ∧
    coreml_model.metadata.short_description = "Simple linear regression: y = 2*x + 1" ∧
    manualModel.metadata.short_description = "Simple linear function: y = 2*x + 1" :=
  ⟨rfl, rfl, rfl, rfl, rfl, rfl⟩

/-- C7: Both scripts write to the same fixed filename "simple_model.mlmodel";
running either over any prior filesystem stores its artifact there (so a
second run overwrites the first's file), the stored contents do not depend
on the prior filesystem, and no other filename is touched. -/
theorem save_overwrites_same_filename :
    ∀ (fs : FS) (args : List String) (env : String → Option String),
      (runTrainerScript args env fs).1 "simple_model.mlmodel" = some (.glm coreml_model) ∧
      (runManualScript args env fs).1 "simple_model.mlmodel" = some (.nn manualModel) ∧
      (runManualScript args env (runTrainerScript args env fs).1).1 "simple_model.mlmodel"
        = some (.nn manualModel) ∧
      (runTrainerScript args env (runManualScript args env fs).1).1 "simple_model.mlmodel"
        = some (.glm coreml_model) ∧
      ∀ n, n ≠ "simple_model.mlmodel" →
        (runTrainerScript args env fs).1 n = fs n ∧ (runManualScript args env fs).1 n = fs n := by
  intro fs args env
  refine ⟨by simp [runTrainerScript, save], by simp [runManualScript, save],
    by simp [runTrainerScript, runManualScript, save],
    by simp [runTrainerScript, runManualScript, save], fun n hn => ?_⟩
  simp [runTrainerScript, runManualScript, save, hn]

/-- C7 witness: starting from the empty filesystem, the trainer run stores
its artifact, the manual run after it overwrites the file, and an unrelated
filename stays empty. -/
theorem save_overwrites_same_filename_witness :
    (runManualScript [] (fun _ => none) (runTrainerScript [] (fun _ => none) (fun _ => none)).1).1
        "simple_model.mlmodel" = some (.nn manualModel) ∧
    (runTrainerScript [] (fun _ => none) (fun _ => none)).1 "notes.txt" = none :=
  ⟨(save_overwrites_same_filename (fun _ => none) [] (fun _ => none)).2.2.1,
   ((save_overwrites_same_filename (fun _ => none) [] (fun _ => none)).2.2.2.2
      "notes.txt" (by decide)).1⟩

/-- C8: On every run each script prints its fixed success message, and that
message restates the formula y = 2*x + 1 and describes the input and output
features. -/
theorem success_message_printed :
    (∀ (args : List String) (env : String → Option String) (fs : FS),
        (runTrainerScript args env fs).2 = trainerOutput) ∧
    (∀ (args : List String) (env : String → Option String) (fs : FS),
        (runManualScript args env fs).2 = manualOutput) ∧
    "   Formula: y = 2*x + 1" ∈ trainerOutput ∧
    "   Input: \x27input\x27 (double)" ∈ trainerOutput ∧
    "   Output: \x27output\x27 (double)" ∈ trainerOutput ∧
    "   Formula: y = 2*x + 1" ∈ manualOutput ∧
    "   Input: \x27input\x27 (array of size 1)" ∈ manualOutput ∧
    "   Output: \x27output\x27 (array of size 1)" ∈ manualOutput := by
  refine ⟨fun _ _ _ => rfl, fun _ _ _ => rfl, ?_, ?_, ?_, ?_, ?_, ?_⟩ <;>
    simp [trainerOutput, manualOutput]

/-- C8 witness: the printed lines of a concrete trainer run. -/
theorem success_message_printed_witness :
    (runTrainerScript [] (fun _ => none) (fun _ => none)).2 = trainerOutput :=
  success_message_printed.1 [] (fun _ => none) (fun _ => none)

/-- C9: Each script is deterministic: it reads no arguments, environment or
randomness, so any two runs — whatever the arguments, environment, and prior
filesystem — store identical artifact contents (parameters, feature
declarations, metadata) and print identical console output. -/
theorem scripts_deterministic :
    ∀ (args₁ args₂ : List String) (env₁ env₂ : String → Option String) (fs₁ fs₂ : FS),
      (runTrainerScript args₁ env₁ fs₁).1 "simple_model.mlmodel"
          = (runTrainerScript args₂ env₂ fs₂).1 "simple_model.mlmodel" ∧
      (runTrainerScript args₁ env₁ fs₁).2 = (runTrainerScript args₂ env₂ fs₂).2 ∧
      (runManualScript args₁ env₁ fs₁).1 "simple_model.mlmodel"
          = (runManualScript args₂ env₂ fs₂).1 "simple_model.mlmodel" ∧
      (runManualScript args₁ env₁ fs₁).2 = (runManualScript args₂ env₂ fs₂).2 := by
  intro args₁ args₂ env₁ env₂ fs₁ fs₂
  refine ⟨?_, rfl, ?_, rfl⟩ <;> simp [runTrainerScript, runManualScript, save]

/-- C9 witness: two concrete runs with different arguments, environments and
filesystems agree on the saved artifact and the printed output. -/
theorem scripts_deterministic_witness :
    (runTrainerScript ["a"] (fun _ => some "1") (fun _ => none)).1 "simple_model.mlmodel"
        = (runTrainerScript [] (fun _ => none)
            (fun _ => some (.nn manualModel))).1 "simple_model.mlmodel" ∧
    (runTrainerScript ["a"] (fun _ => some "1") (fun _ => none)).2
        = (runTrainerScript [] (fun _ => none) (fun _ => some (.nn manualModel))).2 :=
  ⟨(scripts_deterministic ["a"] [] (fun _ => some "1") (fun _ => none)
      (fun _ => none) (fun _ => some (.nn manualModel))).1,
   (scripts_deterministic ["a"] [] (fun _ => some "1") (fun _ => none)
      (fun _ => none) (fun _ => some (.nn manualModel))).2.1⟩

/-- C10: In both embeddings, the three metadata assignments performed after
model construction change only the metadata: the coefficient, intercept and
feature declarations of the GLM model, and the layers and feature
declarations of the network model, are unchanged, while the metadata ends up
holding exactly the three assigned strings. -/
theorem metadata_assignment_frame :
    (∀ (m : GLMRegressionModel) (d a v : String),
      (((m.setShortDescription d).setAuthor a).setVersion v).coef = m.coef ∧
      (((m.setShortDescription d).setAuthor a).setVersion v).intercept = m.intercept ∧
      (((m.setShortDescription d).setAuthor a).setVersion v).input_features = m.input_features ∧
      (((m.setShortDescription d).setAuthor a).setVersion v).output_feature_names
          = m.output_feature_names ∧
      (((m.setShortDescription d).setAuthor a).setVersion v).metadata = ⟨d, a, v⟩) ∧
    (∀ (m : NeuralNetworkModel) (d a v : String),
      (((m.setShortDescription d).setAuthor a).setVersion v).layers = m.layers ∧
      (((m.setShortDescription d).setAuthor a).setVersion v).input_features = m.input_features ∧
      (((m.setShortDescription d).setAuthor a).setVersion v).output_features
          = m.output_features ∧
      (((m.setShortDescription d).setAuthor a).setVersion v).metadata = ⟨d, a, v⟩) :=
  ⟨fun _ _ _ _ => ⟨rfl, rfl, rfl, rfl, rfl⟩, fun _ _ _ _ => ⟨rfl, rfl, rfl, rfl⟩⟩

/-- C10 witness: the frame property instantiated at the two scripts' actual
models and metadata strings. -/
theorem metadata_assignment_frame_witness :
    coreml_model.coef = convertedModel.coef ∧ manualModel.layers = model_spec.layers :=
  ⟨(metadata_assignment_frame.1 convertedModel "Simple linear regression: y = 2*x + 1"
      "CoreML Experiment" "1.0").1,
   (metadata_assignment_frame.2 model_spec "Simple linear function: y = 2*x + 1"
      "CoreML Experiment" "1.0").1⟩

end CoreMLPlaygrounds
